import Mathlib

/-
  Verification development for the snugglesLIVE conversation front-end.

  The definitions below are a shallow embedding of the coordination core of
  the repository:

  * the conversation orchestrator `handleUserSpeech` and the speech-synthesis
    start/end handlers, from src/hooks/useConversation.ts;
  * the utterance finalizer (debounce logic of the onTranscript handler in
    src/hooks/useConversation.ts), as a timed event model;
  * the message formatting and request bookkeeping of GeminiService, from
    src/services/gemini.ts;
  * the recognition error filter of SpeechService, from src/services/speech.ts;
  * the persistence operations of DatabaseService, from
    src/services/database.ts, modelled as pure operations on an in-memory
    store, with backend failures injected through an environment record.

  External effects (database writes, the HTTP request, speech synthesis) are
  modelled by explicit state passing plus an `Env` record that fixes the
  outcome of each suspension point of one pipeline run; a `Trace` records the
  observable calls made to the collaborators.
-/

/-- Message role, from the MessageRole type in src/types/index.ts. -/
inductive Role
  | user
  | assistant
deriving DecidableEq, Repr

/-- A persisted message: the fields of the Message record of
src/types/index.ts that the coordination logic reads (id and creation order
are collapsed into a single numeric id assigned by the store). -/
structure StoredMessage where
  id : Nat
  session_id : String
  role : Role
  content : String
deriving DecidableEq, Repr

/-- A conversation summary record, from ConversationSummary in
src/types/index.ts (timestamps omitted; they are never read by the core). -/
structure SummaryRec where
  session_id : String
  summary : String
  message_count : Nat
deriving DecidableEq, Repr

/-- The relational store behind DatabaseService (src/services/database.ts):
the conversations table, the conversation_summaries table (unique per
session), and the id sequence. -/
structure Db where
  messages : List StoredMessage
  summaries : List SummaryRec
  nextId : Nat
deriving DecidableEq, Repr

/-- DatabaseService.saveMessage on the success path: the insert assigns an id
and returns the stored row. -/
def saveMessageDb (db : Db) (sid : String) (r : Role) (content : String) :
    Db × StoredMessage :=
  let m : StoredMessage := ⟨db.nextId, sid, r, content⟩
  ({ db with messages := db.messages ++ [m], nextId := db.nextId + 1 }, m)

/-- DatabaseService.getConversationMessages: all rows of the session in
insertion order. -/
def listMessages (db : Db) (sid : String) : List StoredMessage :=
  db.messages.filter (fun m => m.session_id == sid)

/-- DatabaseService.getSummary: the unique summary row for the session, if
present. -/
def getSummaryDb (db : Db) (sid : String) : Option SummaryRec :=
  db.summaries.find? (fun s => s.session_id == sid)

/-- DatabaseService.saveSummary on the success path: upsert keyed on
session_id. -/
def saveSummaryDb (db : Db) (rec : SummaryRec) : Db :=
  { db with
    summaries := db.summaries.filter (fun s => s.session_id != rec.session_id)
      ++ [rec] }

/-- The JavaScript String.prototype.trim operation used by the source
(text.trim()): strip whitespace from both ends.  Defined over the character
list so that concrete runs reduce inside the kernel. -/
def jsTrim (s : String) : String :=
  ⟨((s.data.dropWhile fun c => c.isWhitespace).reverse.dropWhile
      fun c => c.isWhitespace).reverse⟩

/-- ActivityState of the avatar, from AvatarState in src/types/index.ts. -/
inductive AvatarState
  | idle
  | listening
  | thinking
  | speaking
deriving DecidableEq, Repr

/-- The orchestrator state: the useState fields of the useConversation hook
(src/hooks/useConversation.ts). -/
structure ConvState where
  messages : List StoredMessage
  currentTranscript : String
  avatarState : AvatarState
  isListening : Bool
  isSpeaking : Bool
  isProcessing : Bool
  error : Option String
  sessionId : String
deriving DecidableEq, Repr

/-- The speech-synthesis start handler registered in the hook
(speechService.onSpeakingStart, src/hooks/useConversation.ts lines 102-105). -/
def onSpeakingStart (s : ConvState) : ConvState :=
  { s with isSpeaking := true, avatarState := .speaking }

/-- The speech-synthesis end handler registered in the hook
(speechService.onSpeakingEnd, src/hooks/useConversation.ts lines 107-112):
clear the speaking flag, and only when both the listening flag and the
processing flag are false set the avatar to idle; in every other case the
avatar state is left untouched. -/
def onSpeakingEnd (s : ConvState) : ConvState :=
  let s1 := { s with isSpeaking := false }
  if s1.isListening = false ∧ s1.isProcessing = false then
    { s1 with avatarState := .idle }
  else s1

/-- The catch block of handleUserSpeech: surface the error message, clear the
processing flag, return the avatar to idle. -/
def catchErr (s : ConvState) (msg : String) : ConvState :=
  { s with error := some msg, isProcessing := false, avatarState := .idle }

/-- Fixes the outcome of each suspension point of one pipeline run: for each
fallible external call, none means success and some m means the backend
failed with message m; the Response Generator outcome is either the thrown
error message or the reply text. -/
structure Env where
  userSaveErr : Option String
  geminiInitialized : Bool
  getSummaryErr : Option String
  geminiOutcome : Except String String
  aiSaveErr : Option String
  speakErr : Option String
  summarySaveErr : Option String
deriving Repr

/-- Observable collaborator calls made during one pipeline run. -/
structure Trace where
  savedAttempts : List (Role × String)
  geminiCalls : List (List StoredMessage × Option String)
  putSummaryCalls : List SummaryRec
  spoken : List String
deriving DecidableEq, Repr

/-- The empty trace. -/
def Trace.empty : Trace := ⟨[], [], [], []⟩

/-- Result of one pipeline run: final store, final orchestrator state, and
the trace of collaborator calls. -/
structure RunResult where
  db : Db
  state : ConvState
  trace : Trace
deriving DecidableEq, Repr

/-- handleUserSpeech from src/hooks/useConversation.ts (lines 124-190),
translated clause by clause.

The local variable snapshot plays the role of the messages value captured by
the useCallback closure: the transcript as it was when the callback was
created, before this submission appended anything.  The functional
setMessages updates append to the current state, while allMessages and the
summarization block read the snapshot, exactly as in the source.

The awaited speak call fires the synthesis start handler and then the
synthesis end handler before control returns; on a synthesis error the end
handler runs and the rejection is caught by the catch block. -/
def handleUserSpeech (env : Env) (db : Db) (s0 : ConvState) (text : String) :
    RunResult :=
  if jsTrim text = "" ∨ s0.isProcessing = true then ⟨db, s0, Trace.empty⟩
  else
    let snapshot := s0.messages
    let s1 := { s0 with currentTranscript := "", isListening := false,
                        isProcessing := true, avatarState := .thinking }
    let tr1 : Trace := { Trace.empty with savedAttempts := [(.user, text)] }
    match env.userSaveErr with
    | some m => ⟨db, catchErr s1 ("Failed to save message: " ++ m), tr1⟩
    | none =>
      let (db1, savedUser) := saveMessageDb db s1.sessionId .user text
      let s2 := { s1 with messages := s1.messages ++ [savedUser] }
      if env.geminiInitialized = false then
        ⟨db1, catchErr s2
          "Gemini API is not configured. Please set your API key in settings.",
          tr1⟩
      else
        let allMessages := snapshot ++ [savedUser]
        match env.getSummaryErr with
        | some m => ⟨db1, catchErr s2 ("Failed to fetch summary: " ++ m), tr1⟩
        | none =>
          let summaryText := (getSummaryDb db1 s1.sessionId).map (·.summary)
          let tr2 := { tr1 with geminiCalls := [(allMessages, summaryText)] }
          match env.geminiOutcome with
          | .error m => ⟨db1, catchErr s2 m, tr2⟩
          | .ok aiResponse =>
            let tr3 := { tr2 with
              savedAttempts := tr2.savedAttempts ++ [(.assistant, aiResponse)] }
            match env.aiSaveErr with
            | some m =>
                ⟨db1, catchErr s2 ("Failed to save message: " ++ m), tr3⟩
            | none =>
              let (db2, savedAi) := saveMessageDb db1 s1.sessionId .assistant
                aiResponse
              let s3 := { s2 with messages := s2.messages ++ [savedAi] }
              let s4 := { s3 with isProcessing := false }
              let tr4 := { tr3 with spoken := [aiResponse] }
              let s5 := onSpeakingStart s4
              let s6 := onSpeakingEnd s5
              match env.speakErr with
              | some m =>
                  ⟨db2, catchErr s6 ("Speech synthesis error: " ++ m), tr4⟩
              | none =>
                if snapshot.length > 20 then
                  let rec1 : SummaryRec := ⟨s1.sessionId,
                    "Conversation with " ++ toString snapshot.length ++
                      " messages. Recent topics discussed.",
                    snapshot.length⟩
                  let tr5 := { tr4 with putSummaryCalls := [rec1] }
                  match env.summarySaveErr with
                  | some m =>
                      ⟨db2, catchErr s6 ("Failed to save summary: " ++ m), tr5⟩
                  | none => ⟨saveSummaryDb db2 rec1, s6, tr5⟩
                else ⟨db2, s6, tr4⟩

/-- A transcript event delivered by the Transcription Source: arrival time in
milliseconds, the reported text, and the final flag. -/
structure TEvent where
  time : Nat
  text : String
  isFinal : Bool
deriving DecidableEq, Repr

/-- What the single pending timeout of the onTranscript handler will do when
it fires: the final-event timeout closes over the already trimmed text, the
interim safety timeout reads the pending transcript ref at fire time. -/
inductive TimerKind
  | fin (text : String)
  | safety
deriving DecidableEq, Repr

/-- The single pending timeout slot (transcriptTimeoutRef). -/
structure PendingTimer where
  expiry : Nat
  kind : TimerKind
deriving DecidableEq, Repr

/-- Finalizer state: pendingTranscriptRef, the single pending timeout, and
the utterances handed to handleUserSpeech so far. -/
structure FinState where
  pendingTranscript : String
  pending : Option PendingTimer
  emitted : List String
deriving DecidableEq, Repr

/-- The finalize-delay of the onTranscript handler, in milliseconds
(src/hooks/useConversation.ts line 86). -/
def finalizeDelay : Nat := 1000

/-- The safety-timer delay of the onTranscript handler, in milliseconds
(src/hooks/useConversation.ts line 92). -/
def safetyDelay : Nat := 2000

/-- Expiry of the pending timeout: the timeout body from
src/hooks/useConversation.ts lines 84-92.  A firing utterance submission
clears the transcript refs, as handleUserSpeech does on entry. -/
def fireTimer (s : FinState) : FinState :=
  match s.pending with
  | none => s
  | some t =>
    match t.kind with
    | .fin txt =>
        ⟨"", none, s.emitted ++ [txt]⟩
    | .safety =>
        if jsTrim s.pendingTranscript = "" then { s with pending := none }
        else ⟨"", none, s.emitted ++ [jsTrim s.pendingTranscript]⟩

/-- Run the pending timeout if its expiry has been reached by the given
instant; the scheduler delivers a due timeout before a later event. -/
def fireDue (s : FinState) (now : Nat) : FinState :=
  match s.pending with
  | none => s
  | some t => if t.expiry ≤ now then fireTimer s else s

/-- The timeout that the onTranscript handler leaves behind after one event:
a final event with non-empty trimmed text arms the finalize-delay timeout
over the trimmed text, any interim event arms the safety timeout, and a
final event with whitespace-only text arms nothing. -/
def eventOutcome (e : TEvent) : Option PendingTimer :=
  if e.isFinal = true ∧ jsTrim e.text ≠ "" then
    some ⟨e.time + finalizeDelay, .fin (jsTrim e.text)⟩
  else if e.isFinal = false then
    some ⟨e.time + safetyDelay, .safety⟩
  else none

/-- The onTranscript handler of src/hooks/useConversation.ts (lines 75-94):
any already due timeout fires first, then the handler records the new text in
the pending transcript ref, clears the pending timeout, and re-arms it
according to the event kind. -/
def onTranscriptEvent (s : FinState) (e : TEvent) : FinState :=
  let s1 := fireDue s e.time
  let s2 := { s1 with pendingTranscript := e.text, pending := none }
  { s2 with pending := eventOutcome e }

/-- Deliver a list of transcript events in order. -/
def runEvents (s : FinState) : List TEvent → FinState
  | [] => s
  | e :: es => runEvents (onTranscriptEvent s e) es

/-- Initial finalizer state: empty refs, no pending timeout, nothing
emitted. -/
def initFin : FinState := ⟨"", none, []⟩

/-- Deliver the events from the initial state, then let silence last until
the remaining pending timeout (if any) fires. -/
def finalizeRun (es : List TEvent) : FinState :=
  fireTimer (runEvents initFin es)

/-- Every event arrives less than the finalize delay after its predecessor,
so each event reaches the handler while the previously armed timeout is
still pending (the cancel-and-restart regime the spec describes). -/
def closeGaps : List TEvent → Bool
  | e1 :: e2 :: es => (decide (e2.time < e1.time + finalizeDelay)) && closeGaps (e2 :: es)
  | _ => true

/-- Last event of a nonempty event list given head and tail. -/
def lastEvent : TEvent → List TEvent → TEvent
  | e, [] => e
  | _, e2 :: es => lastEvent e2 es

/-- One formatted entry of the outbound Gemini context (role string and text
part), from GeminiService.formatMessages in src/services/gemini.ts. -/
structure CtxEntry where
  role : String
  text : String
deriving DecidableEq, Repr

/-- The per-message entry built by the loop of GeminiService.formatMessages:
user maps to role user, everything else to role model. -/
def msgEntry (m : StoredMessage) : CtxEntry :=
  ⟨if m.role = .user then "user" else "model", m.content⟩

/-- GeminiService.formatMessages (src/services/gemini.ts lines 44-64): an
optional leading summary entry - present only when a summary string was
passed and it is non-empty, matching the truthiness test of the source -
followed by the last ten messages in their given order (messages.slice(-10)
becomes dropping all but the last ten). -/
def formatMessages (messages : List StoredMessage) (summary : Option String) :
    List CtxEntry :=
  let contextMessages : List CtxEntry :=
    match summary with
    | some s =>
        if s ≠ "" then
          [⟨"user", "[Previous conversation summary: " ++ s ++ "]"⟩]
        else []
    | none => []
  let recentMessages := messages.drop (messages.length - 10)
  contextMessages ++ recentMessages.map msgEntry

/-- Request bookkeeping of one GeminiService instance: the requestQueue
array, and the set of HTTP requests that have been issued and not yet
settled. -/
structure GeminiM where
  requestQueue : List Nat
  httpStarted : List Nat
deriving DecidableEq, Repr

/-- A GeminiService instance before any call. -/
def initGemini : GeminiM := ⟨[], []⟩

/-- Entry into GeminiService.generateResponse (src/services/gemini.ts lines
27-42): the statement request = makeRequest(...) issues the HTTP request at
once - nothing consults the queue before the fetch starts - and the request
is then pushed onto requestQueue. -/
def generateResponseCall (st : GeminiM) (rid : Nat) : GeminiM :=
  ⟨st.requestQueue ++ [rid], st.httpStarted ++ [rid]⟩

/-- Settlement of a request: the finally block filters it out of
requestQueue, and the HTTP exchange is over. -/
def requestSettled (st : GeminiM) (rid : Nat) : GeminiM :=
  ⟨st.requestQueue.filter (fun r => r ≠ rid),
   st.httpStarted.filter (fun r => r ≠ rid)⟩

/-- The recognition onerror handler of SpeechService
(src/services/speech.ts lines 53-65): reasons no-speech and aborted return
before reaching the callback; any other reason invokes the registered
callback (when one is registered) with the prefixed message.  The result is
the message delivered to the error callback, if any. -/
def recognitionErrorEmit (registered : Bool) (reason : String) :
    Option String :=
  if reason = "no-speech" then none
  else if reason = "aborted" then none
  else if registered = true then
    some ("Speech recognition error: " ++ reason)
  else none

/-- Every pending timeout of the state expires strictly after the given
instant. -/
def pendingFresh (s : FinState) (t : Nat) : Prop :=
  ∀ p, s.pending = some p → t < p.expiry

/-- An event that reaches the handler while the pending timeout is still
fresh simply replaces the refs: nothing fires, the new text is recorded and
the timeout re-armed. -/
theorem onTranscriptEvent_fresh (s : FinState) (e : TEvent)
    (h : pendingFresh s e.time) :
    onTranscriptEvent s e = ⟨e.text, eventOutcome e, s.emitted⟩ := by
  unfold onTranscriptEvent fireDue
  cases hp : s.pending with
  | none => rfl
  | some p =>
      have hlt := h p hp
      have hnle : ¬ p.expiry ≤ e.time := by omega
      simp [hnle]

/-- Under the cancel-and-restart regime, a run of events emits nothing and
ends with the refs and timeout determined by the last event alone. -/
theorem runEvents_closeGaps (es : List TEvent) : ∀ (e : TEvent) (s : FinState),
    closeGaps (e :: es) = true → pendingFresh s e.time →
    runEvents s (e :: es)
      = ⟨(lastEvent e es).text, eventOutcome (lastEvent e es), s.emitted⟩ := by
  induction es with
  | nil =>
      intro e s _ hf
      simp [runEvents, lastEvent, onTranscriptEvent_fresh s e hf]
  | cons e2 es ih =>
      intro e s h hf
      have hsplit : e2.time < e.time + finalizeDelay ∧
          closeGaps (e2 :: es) = true := by
        have h2 := h
        unfold closeGaps at h2
        simpa using h2
      have hstep := onTranscriptEvent_fresh s e hf
      have hf2 : pendingFresh ⟨e.text, eventOutcome e, s.emitted⟩ e2.time := by
        intro p hp
        simp only [eventOutcome] at hp
        split at hp
        · cases hp
          have := hsplit.1
          simp only [finalizeDelay] at *
          omega
        · split at hp
          · cases hp
            have := hsplit.1
            simp only [finalizeDelay, safetyDelay] at *
            omega
          · cases hp
      calc runEvents s (e :: e2 :: es)
          = runEvents (onTranscriptEvent s e) (e2 :: es) := rfl
        _ = runEvents ⟨e.text, eventOutcome e, s.emitted⟩ (e2 :: es) := by
              rw [hstep]
        _ = ⟨(lastEvent e2 es).text, eventOutcome (lastEvent e2 es),
              s.emitted⟩ := ih e2 _ hsplit.2 hf2
        _ = ⟨(lastEvent e (e2 :: es)).text, eventOutcome (lastEvent e (e2 :: es)),
              s.emitted⟩ := rfl

/-- The last event of a nonempty event list is one of its events. -/
theorem lastEvent_mem (e : TEvent) (es : List TEvent) :
    lastEvent e es ∈ e :: es := by
  induction es generalizing e with
  | nil => simp [lastEvent]
  | cons e2 es ih =>
      simp only [lastEvent]
      exact List.mem_cons_of_mem e (ih e2)

/-- Claim C2: a submitUtterance call made while the processing flag is set
has no observable effect - the store is untouched, no collaborator is
called (in particular the Response Generator is not invoked) and every
orchestrator state field is unchanged, so at most one utterance pipeline is
in flight per orchestrator instance. -/
theorem c2_reentrant_call_no_effect (env : Env) (db : Db) (s : ConvState)
    (text : String) (h : s.isProcessing = true) :
    handleUserSpeech env db s text = ⟨db, s, Trace.empty⟩ := by
  unfold handleUserSpeech
  rw [if_pos (Or.inr h)]

/-- Claim C2, witness: a concrete re-entrant call returns the store, the
state and the empty trace unchanged. -/
theorem c2_reentrant_call_no_effect_witness :
    handleUserSpeech ⟨none, true, none, .ok "r", none, none, none⟩ ⟨[], [], 0⟩
      ⟨[], "", .thinking, false, false, true, none, "s"⟩ "hi"
      = ⟨⟨[], [], 0⟩, ⟨[], "", .thinking, false, false, true, none, "s"⟩,
          Trace.empty⟩ :=
  c2_reentrant_call_no_effect _ _ _ _ rfl

/-- Claim C3, counterexample: at a state whose mic flag is off but whose
processing flag is on (a second utterance pipeline mid-flight while earlier
playback ends), the playback-end handler leaves the avatar state untouched
instead of moving it to idle as the claim requires; likewise a state still
shown as speaking stays speaking. -/
theorem c3_counterexample :
    (onSpeakingEnd ⟨[], "", .speaking, false, true, true, none, "s"⟩).avatarState
        = .speaking
    ∧ (⟨[], "", .speaking, false, true, true, none, "s"⟩ : ConvState).isListening
        = false
    ∧ AvatarState.speaking ≠ AvatarState.idle := by
  decide

/-- Claim C3, amended: when playback ends the speaking flag is always
cleared, the avatar moves to idle exactly when both the mic flag and the
processing flag are false, and in every other case the avatar state is left
unchanged (so it is not forced to listening, and can remain what it was). -/
theorem c3_speaking_end_amended (s : ConvState) :
    (onSpeakingEnd s).isSpeaking = false
    ∧ (s.isListening = false → s.isProcessing = false →
        (onSpeakingEnd s).avatarState = .idle)
    ∧ (s.isListening = true ∨ s.isProcessing = true →
        (onSpeakingEnd s).avatarState = s.avatarState) := by
  unfold onSpeakingEnd
  refine ⟨?_, ?_, ?_⟩
  · dsimp only
    split <;> rfl
  · intro h1 h2
    simp [h1, h2]
  · intro h
    rcases h with h | h <;> simp [h]

/-- Claim C3, witness: with mic off and no pipeline running, the handler
does reach idle at a concrete state. -/
theorem c3_speaking_end_amended_witness :
    (onSpeakingEnd ⟨[], "", .speaking, false, true, false, none, "s"⟩).avatarState
      = .idle :=
  (c3_speaking_end_amended ⟨[], "", .speaking, false, true, false, none, "s"⟩).2.1
    rfl rfl

/-- Claim C9: two calls to generateResponse that overlap - the second
arriving before the first settles - both have their HTTP request started at
once, so two requests are concurrently outstanding; the requestQueue records
them but gates nothing, contradicting the serialization the spec states and
the intent of the request queue. -/
theorem c9_overlapping_calls_both_start :
    ((generateResponseCall (generateResponseCall initGemini 0) 1).httpStarted
        = [0, 1])
    ∧ ¬ (generateResponseCall (generateResponseCall initGemini 0) 1).httpStarted.length
          ≤ 1
    ∧ (generateResponseCall (generateResponseCall initGemini 0) 1).requestQueue.length
        = 2 := by
  decide

/-- Claim C10: recognition errors with reason no-speech or aborted never
reach the registered error callback, while any other reason is delivered to
the registered callback with the prefixed message. -/
theorem c10_recognition_error_filter (reason : String) (registered : Bool) :
    (reason = "no-speech" → recognitionErrorEmit registered reason = none)
    ∧ (reason = "aborted" → recognitionErrorEmit registered reason = none)
    ∧ (reason ≠ "no-speech" → reason ≠ "aborted" →
        recognitionErrorEmit true reason
          = some ("Speech recognition error: " ++ reason)) := by
  refine ⟨?_, ?_, ?_⟩
  · intro h
    simp [recognitionErrorEmit, h]
  · intro h
    simp [recognitionErrorEmit, h]
  · intro h1 h2
    simp [recognitionErrorEmit, h1, h2]

/-- Claim C10, witness: a network error reaches the callback while no-speech
and aborted are swallowed, at concrete inputs. -/
theorem c10_recognition_error_filter_witness :
    recognitionErrorEmit true "network"
        = some "Speech recognition error: network"
    ∧ recognitionErrorEmit true "no-speech" = none
    ∧ recognitionErrorEmit true "aborted" = none :=
  ⟨(c10_recognition_error_filter "network" true).2.2 (by decide) (by decide),
   (c10_recognition_error_filter "no-speech" true).1 rfl,
   (c10_recognition_error_filter "aborted" true).2.1 rfl⟩

/-- Claim C4: when persisting the user message fails, the pipeline aborts
before the Response Generator - no generator call is made, the storage error
message is surfaced as the current error, the store is unchanged, the save
is attempted exactly once (no retry), the processing flag is cleared and the
avatar returns to idle. -/
theorem c4_user_save_failure_aborts (m : String) (gInit : Bool)
    (gsErr : Option String) (gOut : Except String String)
    (aiErr spErr suErr : Option String) (db : Db) (s0 : ConvState)
    (text : String) (hproc : s0.isProcessing = false)
    (htext : jsTrim text ≠ "") :
    (handleUserSpeech ⟨some m, gInit, gsErr, gOut, aiErr, spErr, suErr⟩ db s0
        text).trace.geminiCalls = []
    ∧ (handleUserSpeech ⟨some m, gInit, gsErr, gOut, aiErr, spErr, suErr⟩ db s0
        text).state.error = some ("Failed to save message: " ++ m)
    ∧ (handleUserSpeech ⟨some m, gInit, gsErr, gOut, aiErr, spErr, suErr⟩ db s0
        text).state.avatarState = .idle
    ∧ (handleUserSpeech ⟨some m, gInit, gsErr, gOut, aiErr, spErr, suErr⟩ db s0
        text).state.isProcessing = false
    ∧ (handleUserSpeech ⟨some m, gInit, gsErr, gOut, aiErr, spErr, suErr⟩ db s0
        text).db = db
    ∧ (handleUserSpeech ⟨some m, gInit, gsErr, gOut, aiErr, spErr, suErr⟩ db s0
        text).trace.savedAttempts = [(.user, text)]
    ∧ (handleUserSpeech ⟨some m, gInit, gsErr, gOut, aiErr, spErr, suErr⟩ db s0
        text).trace.spoken = [] := by
  unfold handleUserSpeech
  rw [if_neg (by simp [htext, hproc])]
  simp [catchErr, Trace.empty]

/-- Claim C4, witness: a concrete failing save aborts with the storage
error surfaced, the generator never called and the store untouched. -/
theorem c4_user_save_failure_aborts_witness :
    (handleUserSpeech ⟨some "db down", true, none, .ok "r", none, none, none⟩
        ⟨[], [], 0⟩ ⟨[], "", .listening, true, false, false, none, "s"⟩
        "hi").trace.geminiCalls = []
    ∧ (handleUserSpeech ⟨some "db down", true, none, .ok "r", none, none, none⟩
        ⟨[], [], 0⟩ ⟨[], "", .listening, true, false, false, none, "s"⟩
        "hi").state.error = some ("Failed to save message: " ++ "db down")
    ∧ (handleUserSpeech ⟨some "db down", true, none, .ok "r", none, none, none⟩
        ⟨[], [], 0⟩ ⟨[], "", .listening, true, false, false, none, "s"⟩
        "hi").state.avatarState = .idle :=
  let h := c4_user_save_failure_aborts "db down" true none (.ok "r") none none
    none ⟨[], [], 0⟩ ⟨[], "", .listening, true, false, false, none, "s"⟩ "hi"
    rfl (by decide)
  ⟨h.1, h.2.1, h.2.2.1⟩

/-- Claim C5: when the Response Generator fails after the user message was
persisted, the user message stays in the store (it is in the conversations
table and retrievable through listMessages - no rollback), the generation
error is surfaced, the processing flag is cleared and the avatar returns to
idle. -/
theorem c5_generation_failure_keeps_user_message (gmsg : String)
    (aiErr spErr suErr : Option String) (db : Db) (s0 : ConvState)
    (text : String) (hproc : s0.isProcessing = false)
    (htext : jsTrim text ≠ "") :
    (handleUserSpeech ⟨none, true, none, .error gmsg, aiErr, spErr, suErr⟩ db s0
        text).db.messages
      = db.messages ++ [⟨db.nextId, s0.sessionId, .user, text⟩]
    ∧ (⟨db.nextId, s0.sessionId, .user, text⟩ : StoredMessage)
        ∈ listMessages
          (handleUserSpeech ⟨none, true, none, .error gmsg, aiErr, spErr,
            suErr⟩ db s0 text).db s0.sessionId
    ∧ (handleUserSpeech ⟨none, true, none, .error gmsg, aiErr, spErr, suErr⟩
        db s0 text).state.error = some gmsg
    ∧ (handleUserSpeech ⟨none, true, none, .error gmsg, aiErr, spErr, suErr⟩
        db s0 text).state.avatarState = .idle
    ∧ (handleUserSpeech ⟨none, true, none, .error gmsg, aiErr, spErr, suErr⟩
        db s0 text).state.isProcessing = false := by
  unfold handleUserSpeech
  rw [if_neg (by simp [htext, hproc])]
  simp [catchErr, Trace.empty, saveMessageDb, listMessages, List.mem_filter]

/-- Claim C5, witness: at a concrete failing generation the persisted user
message is still listed for the session and the avatar is idle with the
error surfaced. -/
theorem c5_generation_failure_keeps_user_message_witness :
    (⟨0, "s", .user, "hi"⟩ : StoredMessage)
        ∈ listMessages
          (handleUserSpeech ⟨none, true, none, .error "boom", none, none,
            none⟩ ⟨[], [], 0⟩ ⟨[], "", .listening, true, false, false, none,
            "s"⟩ "hi").db "s"
    ∧ (handleUserSpeech ⟨none, true, none, .error "boom", none, none, none⟩
        ⟨[], [], 0⟩ ⟨[], "", .listening, true, false, false, none, "s"⟩
        "hi").state.error = some "boom"
    ∧ (handleUserSpeech ⟨none, true, none, .error "boom", none, none, none⟩
        ⟨[], [], 0⟩ ⟨[], "", .listening, true, false, false, none, "s"⟩
        "hi").state.avatarState = .idle :=
  let h := c5_generation_failure_keeps_user_message "boom" none none none
    ⟨[], [], 0⟩ ⟨[], "", .listening, true, false, false, none, "s"⟩ "hi" rfl
    (by decide)
  ⟨h.2.1, h.2.2.1, h.2.2.2.1⟩

/-- The 26th-submission run of Scenario B: a session whose transcript and
store already hold 25 messages, all collaborators succeeding. -/
def scenarioBRun : RunResult :=
  handleUserSpeech ⟨none, true, none, .ok "ok", none, none, none⟩
    ⟨(List.range 25).map (fun i => ⟨i, "s", .user, "m"⟩), [], 25⟩
    ⟨(List.range 25).map (fun i => ⟨i, "s", .user, "m"⟩), "", .idle, false,
      false, false, none, "s"⟩
    "hello"

/-- Claim C1, counterexample: in a session with 25 messages the 26th
successful submission does invoke the summary upsert, but with
message_count 25 - the closure snapshot taken before this submission -
while the updated in-memory transcript has 27 messages, so message_count
does not reflect the post-append transcript length as the claim states. -/
theorem c1_counterexample :
    scenarioBRun.trace.putSummaryCalls.map (fun c => c.message_count) = [25]
    ∧ scenarioBRun.state.messages.length = 27
    ∧ (25 : Nat) ≠ 27 := by
  decide

/-- Claim C1, amended: after a fully successful submission the orchestrator
invokes the summary upsert exactly when the pre-submission transcript
snapshot exceeds 20 messages, and the upsert carries message_count equal to
that pre-submission snapshot length, while the updated transcript holds two
more messages than the snapshot. -/
theorem c1_summary_uses_snapshot_count (resp : String) (suErr : Option String)
    (db : Db) (s0 : ConvState) (text : String)
    (hproc : s0.isProcessing = false) (htext : jsTrim text ≠ "") :
    (s0.messages.length > 20 →
      (handleUserSpeech ⟨none, true, none, .ok resp, none, none, suErr⟩ db s0
          text).trace.putSummaryCalls
        = [⟨s0.sessionId,
            "Conversation with " ++ toString s0.messages.length ++
              " messages. Recent topics discussed.",
            s0.messages.length⟩])
    ∧ (s0.messages.length ≤ 20 →
      (handleUserSpeech ⟨none, true, none, .ok resp, none, none, suErr⟩ db s0
          text).trace.putSummaryCalls = [])
    ∧ (handleUserSpeech ⟨none, true, none, .ok resp, none, none, suErr⟩ db s0
          text).state.messages.length = s0.messages.length + 2 := by
  unfold handleUserSpeech
  rw [if_neg (by simp [htext, hproc])]
  refine ⟨?_, ?_, ?_⟩
  · intro h20
    cases suErr <;> simp [saveMessageDb, h20, catchErr, Trace.empty]
  · intro h20
    have hnot : ¬ s0.messages.length > 20 := by omega
    cases suErr <;> simp [saveMessageDb, hnot, catchErr, Trace.empty]
  · cases suErr <;> by_cases h20 : s0.messages.length > 20 <;>
      simp [saveMessageDb, h20, catchErr, Trace.empty, onSpeakingStart,
        onSpeakingEnd]

/-- Claim C1, witness: the amended statement instantiated on the concrete
25-message session of Scenario B. -/
theorem c1_summary_uses_snapshot_count_witness :
    scenarioBRun.trace.putSummaryCalls
      = [⟨"s", "Conversation with 25 messages. Recent topics discussed.",
          25⟩] :=
  (c1_summary_uses_snapshot_count "ok" none
    ⟨(List.range 25).map (fun i => ⟨i, "s", .user, "m"⟩), [], 25⟩
    ⟨(List.range 25).map (fun i => ⟨i, "s", .user, "m"⟩), "", .idle, false,
      false, false, none, "s"⟩
    "hello" rfl (by decide)).1 (by decide)

/-- Claim C8: the outbound context is the image of a suffix of the session
messages of length at most 10 (the most recent ten, kept oldest first),
preceded by exactly one extra summary entry when a non-empty summary string
is supplied; with a single user message and no summary the generator
receives exactly that message. -/
theorem c8_context_shape (msgs : List StoredMessage) (t : String)
    (m : StoredMessage) :
    formatMessages msgs none = (msgs.drop (msgs.length - 10)).map msgEntry
    ∧ (msgs.drop (msgs.length - 10)).length = min 10 msgs.length
    ∧ (msgs.drop (msgs.length - 10)) <:+ msgs
    ∧ (t ≠ "" → formatMessages msgs (some t)
        = ⟨"user", "[Previous conversation summary: " ++ t ++ "]"⟩
            :: formatMessages msgs none)
    ∧ (m.role = .user → formatMessages [m] none = [⟨"user", m.content⟩]) := by
  refine ⟨?_, ?_, ?_, ?_, ?_⟩
  · simp [formatMessages]
  · rw [List.length_drop]
    omega
  · exact List.drop_suffix _ _
  · intro h
    simp [formatMessages, h]
  · intro h
    simp [formatMessages, msgEntry, h]

/-- Claim C8, witness: Scenario A shaped input - one user message, no
summary - yields exactly that message as the whole context, and a non-empty
summary is prepended as one extra entry. -/
theorem c8_context_shape_witness :
    formatMessages [⟨0, "s", .user, "yo"⟩] none = [⟨"user", "yo"⟩]
    ∧ formatMessages [⟨0, "s", .user, "yo"⟩] (some "sum")
        = ⟨"user", "[Previous conversation summary: sum]"⟩
            :: formatMessages [⟨0, "s", .user, "yo"⟩] none :=
  ⟨(c8_context_shape [⟨0, "s", .user, "yo"⟩] "sum" ⟨0, "s", .user, "yo"⟩).2.2.2.2
      rfl,
   (c8_context_shape [⟨0, "s", .user, "yo"⟩] "sum" ⟨0, "s", .user, "yo"⟩).2.2.2.1
      (by decide)⟩

/-- Claim C6: for a burst of transcript events in the cancel-and-restart
regime (every event arrives before the pending timeout fires) whose last
event is final, silence afterwards makes the finalizer emit exactly one
utterance - the trimmed text of the last event - when that trimmed text is
non-empty, and nothing at all when the final text trims to empty. -/
theorem c6_debounce_single_emit (e0 : TEvent) (es : List TEvent)
    (hgap : closeGaps (e0 :: es) = true)
    (hfin : (lastEvent e0 es).isFinal = true) :
    (jsTrim (lastEvent e0 es).text ≠ "" →
      (finalizeRun (e0 :: es)).emitted = [jsTrim (lastEvent e0 es).text])
    ∧ (jsTrim (lastEvent e0 es).text = "" →
      (finalizeRun (e0 :: es)).emitted = []) := by
  have hfresh : pendingFresh initFin e0.time := by
    intro p hp
    simp [initFin] at hp
  have hrun := runEvents_closeGaps es e0 initFin hgap hfresh
  unfold finalizeRun
  rw [hrun]
  constructor
  · intro hne
    simp [fireTimer, eventOutcome, hfin, hne, initFin]
  · intro heq
    simp [fireTimer, eventOutcome, hfin, heq, initFin]

/-- Claim C6, witness: an interim fragment followed by a final event and
silence emits exactly the trimmed final text, once. -/
theorem c6_debounce_single_emit_witness :
    (finalizeRun [⟨0, "hel", false⟩, ⟨500, " hello ", true⟩]).emitted
      = ["hello"] :=
  (c6_debounce_single_emit ⟨0, "hel", false⟩ [⟨500, " hello ", true⟩]
    (by decide) (by decide)).1 (by decide)

/-- Claim C7, counterexample: a sequence consisting of a single interim
event whose text is whitespace-only is followed by silence, yet the
finalizer emits nothing - not exactly one utterance with the trimmed last
interim text, as the claim asserts for every interim-only sequence. -/
theorem c7_counterexample :
    (finalizeRun [⟨0, " ", false⟩]).emitted = []
    ∧ (finalizeRun [⟨0, " ", false⟩]).emitted.length ≠ 1 := by
  decide

/-- Claim C7, amended: for an interim-only sequence in the cancel-and-restart
regime followed by silence of the safety-timer duration, the finalizer emits
exactly one utterance carrying the trimmed last interim text, provided that
trimmed text is non-empty (a whitespace-only last interim text emits
nothing). -/
theorem c7_safety_timer_fallback (e0 : TEvent) (es : List TEvent)
    (hgap : closeGaps (e0 :: es) = true)
    (hint : ∀ ev ∈ e0 :: es, ev.isFinal = false)
    (hne : jsTrim (lastEvent e0 es).text ≠ "") :
    (finalizeRun (e0 :: es)).emitted = [jsTrim (lastEvent e0 es).text] := by
  have hlf : (lastEvent e0 es).isFinal = false :=
    hint _ (lastEvent_mem e0 es)
  have hfresh : pendingFresh initFin e0.time := by
    intro p hp
    simp [initFin] at hp
  have hrun := runEvents_closeGaps es e0 initFin hgap hfresh
  unfold finalizeRun
  rw [hrun]
  simp [fireTimer, eventOutcome, hlf, hne, initFin]

/-- Claim C7, witness: two interim fragments and silence emit exactly the
trimmed last interim text, once. -/
theorem c7_safety_timer_fallback_witness :
    (finalizeRun [⟨0, "he", false⟩, ⟨300, " hey ", false⟩]).emitted
      = ["hey"] :=
  c7_safety_timer_fallback ⟨0, "he", false⟩ [⟨300, " hey ", false⟩]
    (by decide) (by decide) (by decide)
